import Mathlib

/-!
Shallow embedding of the whale-analytics core of the MCP Ether Scanner
repository (`src/core/whale_detector.py`), together with theorems checking
the natural-language specification against that code.

Python floats are modelled as `Rat`, machine integers as `Int`/`Nat`,
`datetime.now()` as an explicit `now : Int` unix-seconds parameter, and the
fallible blockchain data source as functions returning `Except Err _`.
Python exception classes relevant to the `except` clauses of the code are
modelled by the constructors of `Err`.
-/

namespace EtherScan

/-- Python `str.lower()`: lowercase every character. (Implemented over the
character list so that it evaluates by `decide`; observably the same function
as `String.toLower`.) -/
def pyLower (s : String) : String := ⟨s.data.map Char.toLower⟩

instance {ε α : Type} [DecidableEq ε] [DecidableEq α] : DecidableEq (Except ε α) := fun x y =>
  match x, y with
  | .error a, .error b =>
    if h : a = b then .isTrue (by rw [h]) else .isFalse (by intro hc; cases hc; exact h rfl)
  | .ok a, .ok b =>
    if h : a = b then .isTrue (by rw [h]) else .isFalse (by intro hc; cases hc; exact h rfl)
  | .error _, .ok _ => .isFalse (by intro hc; cases hc)
  | .ok _, .error _ => .isFalse (by intro hc; cases hc)

/-- Python exception kinds distinguished by the `except` clauses of
`whale_detector.py`: `httpx.HTTPError`, `ValueError`, `KeyError`, and the
bare `Exception` raised by `analyze_whale`'s wrap-and-reraise handler. -/
inductive Err
  | httpError (msg : String)
  | valueError (msg : String)
  | keyError (msg : String)
  | genericError (msg : String)
  deriving DecidableEq

/-- The message carried by an exception (`str(e)` in the Python code). -/
def Err.message : Err → String
  | .httpError msg => msg
  | .valueError msg => msg
  | .keyError msg => msg
  | .genericError msg => msg

/-- `except (httpx.HTTPError, ValueError, KeyError)` — the catch set of the
batch loops (`compare_whales` and the three discovery routines). -/
def isBatchCaught : Err → Bool
  | .httpError _ => true
  | .valueError _ => true
  | .keyError _ => true
  | .genericError _ => false

/-- `except (httpx.HTTPError, ValueError)` — the catch set of
`_get_whale_class_cached`. -/
def isClassLookupCaught : Err → Bool
  | .httpError _ => true
  | .valueError _ => true
  | _ => false

/-- `WhaleClass` enumeration from `whale_detector.py`. -/
inductive WhaleClass
  | SHRIMP
  | SMALL_WHALE
  | MEDIUM_WHALE
  | LARGE_WHALE
  | MEGA_WHALE
  deriving DecidableEq

/-- The `.value` string of each `WhaleClass` enum member. -/
def WhaleClass.value : WhaleClass → String
  | .SHRIMP => "shrimp"
  | .SMALL_WHALE => "small_whale"
  | .MEDIUM_WHALE => "medium_whale"
  | .LARGE_WHALE => "large_whale"
  | .MEGA_WHALE => "mega_whale"

/-- A transaction record as consumed by the code: the dict fields
`hash`, `from`, `to`, `value` (already `int(...)`-parsed smallest units),
`timeStamp` (already `int(...)`-parsed unix seconds), `blockNumber`. -/
structure Tx where
  hash : String
  from_addr : String
  to_addr : String
  value : Int
  timeStamp : Int
  blockNumber : String
  deriving DecidableEq

/-- A token-transfer record; only `contractAddress` is consumed
(`transfer.get("contractAddress", "")`). -/
structure TokenTransfer where
  contractAddress : String
  deriving DecidableEq

/-- The blockchain data source (`BlockchainService`) as the core consumes it.
`get_balance` folds the fetch and the `float(...)` parse into one fallible
call; `get_transactions` and `get_token_transfers` take `page` and `offset`. -/
structure DataSource where
  get_balance : String → Except Err Rat
  get_transactions : String → Nat → Nat → Except Err (List Tx)
  get_token_transfers : String → Nat → Nat → Except Err (List TokenTransfer)

/-- The `WhaleDetector` context: chain name plus the two chain-scoped
address→label tables, as insertion-ordered association lists. -/
structure WhaleDetector where
  chain : String
  known_whales : List (String × String)
  exchange_addresses : List (String × String)

/-- `WhaleDetector.classify_whale` (lines 81–92). -/
def classify_whale (balance : Rat) : WhaleClass :=
  if balance ≥ 10000 then .MEGA_WHALE
  else if balance ≥ 1000 then .LARGE_WHALE
  else if balance ≥ 100 then .MEDIUM_WHALE
  else if balance ≥ 10 then .SMALL_WHALE
  else .SHRIMP

/-- Whale metrics record (`WhaleMetrics` dataclass). Timestamps are the
parsed unix seconds of the corresponding `timeStamp` strings. -/
structure WhaleMetrics where
  address : String
  eth_balance : Rat
  whale_class : WhaleClass
  total_transactions : Nat
  large_transactions : Nat
  avg_transaction_value : Rat
  max_transaction_value : Rat
  first_seen : Option Int
  last_activity : Option Int
  activity_score : Rat
  risk_score : Rat
  token_diversity : Nat
  chain : String
  deriving DecidableEq

/-- `int(tx["value"]) / 10**18` — a transaction's value in native units. -/
def ethValue (tx : Tx) : Rat := (tx.value : Rat) / 10 ^ 18

/-- `(now - t).days` of a Python `timedelta` between unix timestamps:
floor division of the difference in seconds by 86400. -/
def timedeltaDays (now t : Int) : Int := (now - t).fdiv 86400

/-- `WhaleDetector._calculate_activity_score` (lines 180–193). -/
def _calculate_activity_score (now : Int) (transactions : List Tx) : Rat :=
  if transactions = [] then 0
  else
    let recent_count : Nat := (transactions.take 20).foldl
      (fun cnt tx => if timedeltaDays now tx.timeStamp ≤ 30 then cnt + 1 else cnt) 0
    min 100 (((recent_count : Rat) / 20) * 100)

/-- `WhaleDetector._calculate_risk_score` (lines 195–224): append each
applicable signed contribution to `risk_factors`, sum, clamp to `[0, 100]`. -/
def _calculate_risk_score (now : Int) (d : WhaleDetector) (address : String)
    (transactions : List Tx) (balance : Rat) : Rat :=
  let rf1 : List Rat := if balance > 1000 then [30] else []
  let rf2 : List Rat :=
    if (d.known_whales.map (fun p => pyLower p.1)).contains (pyLower address)
    then rf1 ++ [-20] else rf1
  let rf3 : List Rat :=
    match transactions with
    | [] => rf2
    | _ :: _ =>
      let large_tx_frac : Rat :=
        ((transactions.countP (fun tx => decide (ethValue tx > 100)) : Rat)) /
          (transactions.length : Rat)
      if large_tx_frac > 1 / 2 then rf2 ++ [25] else rf2
  let rf4 : List Rat :=
    match transactions.getLast? with
    | none => rf3
    | some tx => if timedeltaDays now tx.timeStamp < 30 then rf3 ++ [40] else rf3
  max 0 (min 100 rf4.sum)

/-- `self.known_whales.get(address.lower())` (lines 226–228). -/
def get_whale_label (d : WhaleDetector) (address : String) : Option String :=
  (d.known_whales.map (fun p => (pyLower p.1, p.2))).lookup (pyLower address)

/-- `self.exchange_addresses.get(address.lower())` (lines 230–232). -/
def is_exchange_address (d : WhaleDetector) (address : String) : Option String :=
  (d.exchange_addresses.map (fun p => (pyLower p.1, p.2))).lookup (pyLower address)

/-- Python `max(values)` guarded by `if values else 0`. -/
def pyMaxOr0 : List Rat → Rat
  | [] => 0
  | x :: xs => xs.foldl max x

/-- The body of `WhaleDetector.analyze_whale` (lines 96–175), before the
catch-all wrapper. -/
def analyzeWhaleBody (now : Int) (d : WhaleDetector) (ds : DataSource)
    (address : String) : Except Err WhaleMetrics := do
  let balance ← ds.get_balance address
  let whale_class := classify_whale balance
  let transactions ← ds.get_transactions address 1 100
  if transactions = [] then
    pure { address := address, eth_balance := balance, whale_class := whale_class,
           total_transactions := 0, large_transactions := 0,
           avg_transaction_value := 0, max_transaction_value := 0,
           first_seen := none, last_activity := none,
           activity_score := 0, risk_score := 0, token_diversity := 0,
           chain := d.chain }
  else
    let total_transactions := transactions.length
    let transaction_values := transactions.map ethValue
    let large_transactions := transactions.countP (fun tx => decide (ethValue tx > 50))
    let avg_transaction_value : Rat :=
      if transaction_values = [] then 0
      else transaction_values.sum / (transaction_values.length : Rat)
    let max_transaction_value := pyMaxOr0 transaction_values
    let first_seen := (transactions.getLast?).map Tx.timeStamp
    let last_activity := (transactions.head?).map Tx.timeStamp
    let activity_score := _calculate_activity_score now transactions
    let risk_score := _calculate_risk_score now d address transactions balance
    let token_transfers ← ds.get_token_transfers address 1 50
    let token_diversity := ((token_transfers.map TokenTransfer.contractAddress).dedup).length
    pure { address := address, eth_balance := balance, whale_class := whale_class,
           total_transactions := total_transactions,
           large_transactions := large_transactions,
           avg_transaction_value := avg_transaction_value,
           max_transaction_value := max_transaction_value,
           first_seen := first_seen, last_activity := last_activity,
           activity_score := activity_score, risk_score := risk_score,
           token_diversity := token_diversity, chain := d.chain }

/-- `WhaleDetector.analyze_whale` with its `except Exception` handler
(lines 177–178): every failure is re-raised as a bare
`Exception(f"Error analyzing whale on {chain}: {e}")`. -/
def analyze_whale (now : Int) (d : WhaleDetector) (ds : DataSource)
    (address : String) : Except Err WhaleMetrics :=
  match analyzeWhaleBody now d ds address with
  | .ok m => .ok m
  | .error e =>
    .error (.genericError ("Error analyzing whale on " ++ d.chain ++ ": " ++ e.message))

/-- Stable sort descending by a rational key — Python
`list.sort(key=..., reverse=True)` (Timsort is a stable sort, and stable
sorts agree as functions, so insertion sort embeds it faithfully). -/
def sortKeyDesc {α : Type} (key : α → Rat) (l : List α) : List α :=
  l.insertionSort (fun a b => key b ≤ key a)

/-- The per-address loop of `WhaleDetector.compare_whales` (lines 238–246):
on a caught exception, log and continue; other exceptions propagate. -/
def compareWhalesLoop (now : Int) (d : WhaleDetector) (ds : DataSource) :
    List String → Except Err (List WhaleMetrics)
  | [] => .ok []
  | address :: rest =>
    match analyze_whale now d ds address with
    | .ok m =>
      match compareWhalesLoop now d ds rest with
      | .ok ms => .ok (m :: ms)
      | .error e => .error e
    | .error e => if isBatchCaught e then compareWhalesLoop now d ds rest else .error e

/-- `WhaleDetector.compare_whales` (lines 234–250): run the per-address
loop, then `whale_metrics.sort(key=lambda x: x.eth_balance, reverse=True)`. -/
def compare_whales (now : Int) (d : WhaleDetector) (ds : DataSource)
    (addresses : List String) : Except Err (List WhaleMetrics) :=
  (compareWhalesLoop now d ds addresses).map (sortKeyDesc WhaleMetrics.eth_balance)

/-- Movement dict built by `discover_whale_movements` (lines 279–299). -/
structure MovementRec where
  hash : String
  from_address : String
  to_address : String
  value_eth : Rat
  timestamp : Int
  block_number : String
  from_whale_class : String
  to_whale_class : String
  from_label : Option String
  to_label : Option String
  from_exchange : Option String
  to_exchange : Option String
  chain : String
  deriving DecidableEq

/-- `whale_class.value if whale_class else "unknown"`. -/
def optClassStr : Option WhaleClass → String
  | some c => c.value
  | none => "unknown"

/-- `WhaleDetector._get_whale_class_cached` (lines 314–322): fetch the
balance and classify; `httpx.HTTPError`/`ValueError` yield `None`. -/
def _get_whale_class_cached (ds : DataSource) (address : String) :
    Except Err (Option WhaleClass) :=
  match ds.get_balance address with
  | .ok balance => .ok (some (classify_whale balance))
  | .error e => if isClassLookupCaught e then .ok none else .error e

/-- The inner transaction loop of `discover_whale_movements` (lines 269–301).
Returns the movements appended so far together with the exception, if any,
that interrupted the loop (appended movements survive the interruption, as
they do in the Python list). -/
def dwmTxLoop (d : WhaleDetector) (ds : DataSource) (min_value : Rat) :
    List Tx → List MovementRec → List MovementRec × Option Err
  | [], acc => (acc, none)
  | tx :: rest, acc =>
    if ethValue tx ≥ min_value then
      match _get_whale_class_cached ds tx.from_addr with
      | .error e => (acc, some e)
      | .ok from_whale_class =>
        match _get_whale_class_cached ds tx.to_addr with
        | .error e => (acc, some e)
        | .ok to_whale_class =>
          let movement : MovementRec :=
            { hash := tx.hash, from_address := tx.from_addr, to_address := tx.to_addr,
              value_eth := ethValue tx, timestamp := tx.timeStamp,
              block_number := tx.blockNumber,
              from_whale_class := optClassStr from_whale_class,
              to_whale_class := optClassStr to_whale_class,
              from_label := get_whale_label d tx.from_addr,
              to_label := get_whale_label d tx.to_addr,
              from_exchange := is_exchange_address d tx.from_addr,
              to_exchange := is_exchange_address d tx.to_addr,
              chain := d.chain }
          dwmTxLoop d ds min_value rest (acc ++ [movement])
    else dwmTxLoop d ds min_value rest acc

/-- The per-seed loop of `discover_whale_movements` (lines 263–308):
caught exceptions skip to the next seed, others propagate. -/
def dwmSeedLoop (d : WhaleDetector) (ds : DataSource) (min_value : Rat) :
    List String → List MovementRec → Except Err (List MovementRec)
  | [], acc => .ok acc
  | address :: rest, acc =>
    match ds.get_transactions address 1 20 with
    | .error e => if isBatchCaught e then dwmSeedLoop d ds min_value rest acc else .error e
    | .ok txs =>
      match dwmTxLoop d ds min_value txs acc with
      | (acc2, none) => dwmSeedLoop d ds min_value rest acc2
      | (acc2, some e) =>
        if isBatchCaught e then dwmSeedLoop d ds min_value rest acc2 else .error e

/-- `WhaleDetector.discover_whale_movements` (lines 252–312). The
`hours_back` parameter is accepted and unused, as in the source. -/
def discover_whale_movements (d : WhaleDetector) (ds : DataSource)
    (min_value : Rat) (_hours_back : Nat) : Except Err (List MovementRec) :=
  let monitor_addresses :=
    d.known_whales.map Prod.fst ++ d.exchange_addresses.map Prod.fst
  (dwmSeedLoop d ds min_value (monitor_addresses.take 10) []).map
    (fun movements => (sortKeyDesc MovementRec.value_eth movements).take 50)

/-- Exchange-movement dict built by `track_exchange_whales` (lines 413–427). -/
structure ExchangeMovementRec where
  hash : String
  exchange : String
  exchange_address : String
  whale_address : String
  movement_type : String
  value_eth : Rat
  whale_class : String
  whale_label : Option String
  timestamp : Int
  block_number : String
  chain : String
  deriving DecidableEq

/-- Lines 402–408 of `track_exchange_whales`: classify a transaction at an
exchange address as a deposit (counterparty = sender) when the exchange is
the recipient, case-insensitively, else as a withdrawal
(counterparty = recipient). Returns `(movement_type, whale_address)`. -/
def classifyExchangeTx (exchange_addr : String) (tx : Tx) : String × String :=
  if pyLower tx.to_addr = pyLower exchange_addr then ("deposit", tx.from_addr)
  else ("withdrawal", tx.to_addr)

/-- The inner transaction loop of `track_exchange_whales` (lines 398–429). -/
def texTxLoop (d : WhaleDetector) (ds : DataSource) (min_amount : Rat)
    (exchange_name exchange_addr : String) :
    List Tx → List ExchangeMovementRec → List ExchangeMovementRec × Option Err
  | [], acc => (acc, none)
  | tx :: rest, acc =>
    if ethValue tx ≥ min_amount then
      let mt := classifyExchangeTx exchange_addr tx
      match _get_whale_class_cached ds mt.2 with
      | .error e => (acc, some e)
      | .ok whale_class =>
        let movement : ExchangeMovementRec :=
          { hash := tx.hash, exchange := exchange_name,
            exchange_address := exchange_addr, whale_address := mt.2,
            movement_type := mt.1, value_eth := ethValue tx,
            whale_class := optClassStr whale_class,
            whale_label := get_whale_label d mt.2,
            timestamp := tx.timeStamp, block_number := tx.blockNumber,
            chain := d.chain }
        texTxLoop d ds min_amount exchange_name exchange_addr rest (acc ++ [movement])
    else texTxLoop d ds min_amount exchange_name exchange_addr rest acc

/-- The per-exchange loop of `track_exchange_whales` (lines 391–435). -/
def texSeedLoop (d : WhaleDetector) (ds : DataSource) (min_amount : Rat) :
    List (String × String) → List ExchangeMovementRec →
    Except Err (List ExchangeMovementRec)
  | [], acc => .ok acc
  | (exchange_addr, exchange_name) :: rest, acc =>
    match ds.get_transactions exchange_addr 1 30 with
    | .error e => if isBatchCaught e then texSeedLoop d ds min_amount rest acc else .error e
    | .ok txs =>
      match texTxLoop d ds min_amount exchange_name exchange_addr txs acc with
      | (acc2, none) => texSeedLoop d ds min_amount rest acc2
      | (acc2, some e) =>
        if isBatchCaught e then texSeedLoop d ds min_amount rest acc2 else .error e

/-- `WhaleDetector.track_exchange_whales` (lines 384–439). -/
def track_exchange_whales (d : WhaleDetector) (ds : DataSource)
    (min_amount : Rat) : Except Err (List ExchangeMovementRec) :=
  (texSeedLoop d ds min_amount (d.exchange_addresses.take 5) []).map
    (fun movements => (sortKeyDesc ExchangeMovementRec.value_eth movements).take 30)

/-- Whale record built by `discover_top_whales` (lines 362–370). -/
structure DiscoveredWhaleRec where
  address : String
  eth_balance : Rat
  whale_class : String
  label : Option String
  exchange : Option String
  discovery_method : String
  chain : String
  deriving DecidableEq

/-- `if addr.lower() not in discovered_whales: discovered_whales[addr.lower()] = addr`
on an insertion-ordered association list (lines 343–344). -/
def addDiscovered (m : List (String × String)) (addr : String) : List (String × String) :=
  if (m.map Prod.fst).contains (pyLower addr) then m else m ++ [(pyLower addr, addr)]

/-- The address-collection loop over one seed's transactions (lines 338–344). -/
def dtwCollect : List Tx → List (String × String) → List (String × String)
  | [], m => m
  | tx :: rest, m =>
    if ethValue tx ≥ 50 then
      dtwCollect rest (addDiscovered (addDiscovered m tx.from_addr) tx.to_addr)
    else dtwCollect rest m

/-- Phase 1 of `discover_top_whales` (lines 331–350): walk the seed
addresses; on a caught exception skip the seed. -/
def dtwSeedLoop (ds : DataSource) :
    List String → List (String × String) → Except Err (List (String × String))
  | [], m => .ok m
  | address :: rest, m =>
    match ds.get_transactions address 1 50 with
    | .error e => if isBatchCaught e then dtwSeedLoop ds rest m else .error e
    | .ok txs => dtwSeedLoop ds rest (dtwCollect txs m)

/-- Phase 2 of `discover_top_whales` (lines 353–378): fetch each discovered
address's balance, keep those with `balance ≥ min_balance`. -/
def dtwAnalyzeLoop (d : WhaleDetector) (ds : DataSource) (min_balance : Rat) :
    List String → List DiscoveredWhaleRec → Except Err (List DiscoveredWhaleRec)
  | [], acc => .ok acc
  | address :: rest, acc =>
    match ds.get_balance address with
    | .error e =>
      if isBatchCaught e then dtwAnalyzeLoop d ds min_balance rest acc else .error e
    | .ok balance =>
      if balance ≥ min_balance then
        let info : DiscoveredWhaleRec :=
          { address := address, eth_balance := balance,
            whale_class := (classify_whale balance).value,
            label := get_whale_label d address,
            exchange := is_exchange_address d address,
            discovery_method := "transaction_analysis", chain := d.chain }
        dtwAnalyzeLoop d ds min_balance rest (acc ++ [info])
      else dtwAnalyzeLoop d ds min_balance rest acc

/-- `WhaleDetector.discover_top_whales` (lines 324–382). -/
def discover_top_whales (d : WhaleDetector) (ds : DataSource)
    (min_balance : Rat) : Except Err (List DiscoveredWhaleRec) :=
  let seed_addresses := (d.known_whales.map Prod.fst).take 5
  match dtwSeedLoop ds seed_addresses [] with
  | .error e => .error e
  | .ok discovered_whales =>
    (dtwAnalyzeLoop d ds min_balance ((discovered_whales.map Prod.snd).take 30) []).map
      (fun whale_list => (sortKeyDesc DiscoveredWhaleRec.eth_balance whale_list).take 20)

/-- `WhaleDetector.get_movement_significance` (lines 441–452). -/
def get_movement_significance (value : Rat) : String :=
  if value ≥ 10000 then "[!!!] MEGA MOVEMENT"
  else if value ≥ 5000 then "[!!] CRITICAL"
  else if value ≥ 1000 then "[!] MAJOR"
  else if value ≥ 500 then "[*] SIGNIFICANT"
  else "[-] NOTABLE"

/-! ### Concrete fixtures used by witnesses and scenario theorems -/

/-- A detector context with empty label tables on the ethereum chain. -/
def d0 : WhaleDetector :=
  { chain := "ethereum", known_whales := [], exchange_addresses := [] }

/-- A data source where every address has balance 42 and no history. -/
def dsEmptyTx : DataSource :=
  { get_balance := fun _ => .ok 42,
    get_transactions := fun _ _ _ => .ok [],
    get_token_transfers := fun _ _ _ => .ok [] }

/-- A data source whose balance fetch fails with an HTTP error for every
address except `"0xgood"`. -/
def dsC5 : DataSource :=
  { get_balance := fun address =>
      if address = "0xgood" then .ok 5 else .error (.httpError "connection refused"),
    get_transactions := fun _ _ _ => .ok [],
    get_token_transfers := fun _ _ _ => .ok [] }

/-- A transaction whose timestamp is `1000`. -/
def tx0 : Tx :=
  { hash := "0xh", from_addr := "0xa", to_addr := "0xb", value := 0,
    timeStamp := 1000, blockNumber := "1" }

/-- A 600-native-unit transfer into the exchange address `"0xexch"`. -/
def txDeposit : Tx :=
  { hash := "0xdep", from_addr := "0xsender", to_addr := "0xexch",
    value := 600000000000000000000, timeStamp := 500, blockNumber := "2" }

/-- A detector context knowing one exchange address. -/
def dEx : WhaleDetector :=
  { chain := "ethereum", known_whales := [],
    exchange_addresses := [("0xexch", "TestExchange")] }

/-- A data source whose only transaction is `txDeposit`. -/
def dsEx : DataSource :=
  { get_balance := fun _ => .ok 5,
    get_transactions := fun _ _ _ => .ok [txDeposit],
    get_token_transfers := fun _ _ _ => .ok [] }

/-- The metrics record `analyze_whale` produces under `dsEmptyTx`. -/
def mW (a : String) : WhaleMetrics :=
  { address := a, eth_balance := 42, whale_class := classify_whale 42,
    total_transactions := 0, large_transactions := 0,
    avg_transaction_value := 0, max_transaction_value := 0,
    first_seen := none, last_activity := none,
    activity_score := 0, risk_score := 0, token_diversity := 0,
    chain := "ethereum" }

/-! ### Helper lemmas -/

/-- `Except.ok` is a left unit for the monadic bind. -/
theorem except_bind_ok {ε α β : Type} (a : α) (f : α → Except ε β) :
    (Except.ok a : Except ε α) >>= f = f a := rfl

/-- Binding a failed computation keeps the failure. -/
theorem except_bind_error {ε α β : Type} (e : ε) (f : α → Except ε β) :
    (Except.error e : Except ε α) >>= f = .error e := rfl

/-- `pure` on `Except` is `Except.ok`. -/
theorem except_pure {ε α : Type} (a : α) : (pure a : Except ε α) = .ok a := rfl

/-- Destructing `Except.map` when its result is a success. -/
theorem except_map_ok {ε α β : Type} {x : Except ε α} {f : α → β} {b : β}
    (h : x.map f = .ok b) : ∃ a, x = .ok a ∧ b = f a := by
  cases x with
  | error e => simp [Except.map] at h
  | ok a => exact ⟨a, rfl, by simpa [Except.map] using h.symm⟩

/-- `sortKeyDesc` sorts descending by its key. -/
theorem sortKeyDesc_sorted {α : Type} (key : α → Rat) (l : List α) :
    (sortKeyDesc key l).Sorted (fun a b => key b ≤ key a) := by
  haveI h1 : IsTotal α (fun a b => key b ≤ key a) := ⟨fun a b => le_total _ _⟩
  haveI h2 : IsTrans α (fun a b => key b ≤ key a) :=
    ⟨fun a b c hab hbc => le_trans hbc hab⟩
  exact List.sorted_insertionSort _ l

/-- `sortKeyDesc` permutes its input. -/
theorem sortKeyDesc_perm {α : Type} (key : α → Rat) (l : List α) :
    List.Perm (sortKeyDesc key l) l := List.perm_insertionSort _ l

/-- Inserting into a list commutes with filtering an equal-key class:
elements skipped by `orderedInsert` have a strictly larger key, so they
never share the inserted element's key. -/
theorem filter_orderedInsert_key {α : Type} (key : α → Rat) (q : Rat) (a : α)
    (l : List α) :
    (List.orderedInsert (fun x y => key y ≤ key x) a l).filter
        (fun x => decide (key x = q))
      = if key a = q
        then a :: l.filter (fun x => decide (key x = q))
        else l.filter (fun x => decide (key x = q)) := by
  induction l with
  | nil =>
    by_cases ha : key a = q <;> simp [List.orderedInsert, ha]
  | cons b t ih =>
    simp only [List.orderedInsert]
    by_cases hr : key b ≤ key a
    · rw [if_pos hr]
      by_cases ha : key a = q <;> simp [List.filter_cons, ha]
    · rw [if_neg hr]
      by_cases ha : key a = q
      · have hb : ¬ (key b = q) := fun hbq => hr (le_of_eq (by rw [hbq, ha]))
        simp [List.filter_cons, ha, hb, ih]
      · by_cases hb : key b = q <;> simp [List.filter_cons, ha, hb, ih]

/-- Stability of `sortKeyDesc`: each equal-key class is preserved in order. -/
theorem filter_sortKeyDesc {α : Type} (key : α → Rat) (q : Rat) (l : List α) :
    (sortKeyDesc key l).filter (fun x => decide (key x = q))
      = l.filter (fun x => decide (key x = q)) := by
  induction l with
  | nil => rfl
  | cons a t ih =>
    simp only [sortKeyDesc, List.insertionSort] at *
    rw [filter_orderedInsert_key]
    by_cases ha : key a = q <;> simp [List.filter_cons, ha, ih]

/-- Taking a prefix preserves sortedness. -/
theorem sorted_take {α : Type} {r : α → α → Prop} {l : List α}
    (h : l.Sorted r) (n : Nat) : (l.take n).Sorted r :=
  h.sublist (List.take_sublist n l)

/-- A prefix of length `n` has length at most `n`. -/
theorem take_length_le {α : Type} (l : List α) (n : Nat) : (l.take n).length ≤ n := by
  simp [List.length_take]

/-- A successful `analyzeWhaleBody` reports the analyzed address. -/
theorem analyzeWhaleBody_address (now : Int) (d : WhaleDetector) (ds : DataSource)
    (address : String) (m : WhaleMetrics)
    (h : analyzeWhaleBody now d ds address = .ok m) : m.address = address := by
  unfold analyzeWhaleBody at h
  rcases hb : ds.get_balance address with e | balance <;> rw [hb] at h
  · rw [except_bind_error] at h
    cases h
  · simp only [except_bind_ok] at h
    rcases ht : ds.get_transactions address 1 100 with e | txs <;> rw [ht] at h
    · rw [except_bind_error] at h
      cases h
    · simp only [except_bind_ok] at h
      by_cases htx : txs = []
      · rw [if_pos htx] at h
        simp only [except_pure, Except.ok.injEq] at h
        rw [← h]
      · rw [if_neg htx] at h
        rcases htt : ds.get_token_transfers address 1 50 with e | tt
        · rw [htt, except_bind_error] at h
          cases h
        · rw [htt] at h
          simp only [except_bind_ok, except_pure, Except.ok.injEq] at h
          rw [← h]

/-- A successful `analyze_whale` reports the analyzed address. -/
theorem analyze_whale_address (now : Int) (d : WhaleDetector) (ds : DataSource)
    (address : String) (m : WhaleMetrics)
    (h : analyze_whale now d ds address = .ok m) : m.address = address := by
  unfold analyze_whale at h
  rcases hbody : analyzeWhaleBody now d ds address with e | m2 <;> rw [hbody] at h
  · cases h
  · simp only [Except.ok.injEq] at h
    rw [← h]
    exact analyzeWhaleBody_address now d ds address m2 hbody

/-- The addresses of the metrics collected by the `compare_whales` loop form
a subsequence of the input addresses. -/
theorem compareWhalesLoop_addresses (now : Int) (d : WhaleDetector) (ds : DataSource) :
    ∀ (addresses : List String) (ms : List WhaleMetrics),
      compareWhalesLoop now d ds addresses = .ok ms →
      (ms.map WhaleMetrics.address).Sublist addresses := by
  intro addresses
  induction addresses with
  | nil =>
    intro ms h
    unfold compareWhalesLoop at h
    simp only [Except.ok.injEq] at h
    rw [← h]
    simp
  | cons a rest ih =>
    intro ms h
    unfold compareWhalesLoop at h
    split at h
    next m heq =>
      split at h
      next ms2 heq2 =>
        injection h with h
        rw [← h]
        simp only [List.map_cons]
        rw [analyze_whale_address now d ds a m heq]
        exact (ih ms2 heq2).cons₂ a
      next e2 heq2 => cases h
    next e heq =>
      split at h
      · exact (ih ms h).cons a
      · cases h

/-- Whole-day age below 30 days is the same as a seconds difference below
`30 * 86400` (the `timedelta` day count floors). -/
theorem timedeltaDays_lt_30 (now t : Int) :
    timedeltaDays now t < 30 ↔ now - t < 30 * 86400 := by
  unfold timedeltaDays
  rw [Int.fdiv_eq_ediv _ (by norm_num)]
  omega

/-- Counting by a fold with a conditional increment is `countP`. -/
theorem foldlCountP {α : Type} (p : α → Prop) [DecidablePred p] (l : List α) (n : Nat) :
    l.foldl (fun c x => if p x then c + 1 else c) n = n + l.countP (fun x => decide (p x)) := by
  induction l generalizing n with
  | nil => simp
  | cons x xs ih =>
    by_cases h : p x
    · simp [List.countP_cons, ih, h]
      omega
    · simp [List.countP_cons, ih, h]

/-- Claim C1: `classify_whale` is total, and for every balance `b` it
returns `MEGA_WHALE` iff `b ≥ 10000`, `LARGE_WHALE` iff `1000 ≤ b < 10000`,
`MEDIUM_WHALE` iff `100 ≤ b < 1000`, `SMALL_WHALE` iff `10 ≤ b < 100`, and
`SHRIMP` otherwise (so for every negative or zero balance); in particular
`classify_whale 9999.999999 = LARGE_WHALE` and
`classify_whale 10000 = MEGA_WHALE`. -/
theorem C1_classify_whale_thresholds :
    (∀ b : Rat,
      (classify_whale b = .MEGA_WHALE ↔ 10000 ≤ b) ∧
      (classify_whale b = .LARGE_WHALE ↔ 1000 ≤ b ∧ b < 10000) ∧
      (classify_whale b = .MEDIUM_WHALE ↔ 100 ≤ b ∧ b < 1000) ∧
      (classify_whale b = .SMALL_WHALE ↔ 10 ≤ b ∧ b < 100) ∧
      (classify_whale b = .SHRIMP ↔ b < 10)) ∧
    (∀ b : Rat, b ≤ 0 → classify_whale b = .SHRIMP) ∧
    classify_whale (9999999999 / 1000000) = .LARGE_WHALE ∧
    classify_whale 10000 = .MEGA_WHALE := by
  have main : ∀ b : Rat,
      (classify_whale b = .MEGA_WHALE ↔ 10000 ≤ b) ∧
      (classify_whale b = .LARGE_WHALE ↔ 1000 ≤ b ∧ b < 10000) ∧
      (classify_whale b = .MEDIUM_WHALE ↔ 100 ≤ b ∧ b < 1000) ∧
      (classify_whale b = .SMALL_WHALE ↔ 10 ≤ b ∧ b < 100) ∧
      (classify_whale b = .SHRIMP ↔ b < 10) := by
    intro b
    unfold classify_whale
    split_ifs with h1 h2 h3 h4 <;>
      refine ⟨?_, ?_, ?_, ?_, ?_⟩ <;>
      constructor <;>
      intro h <;>
      first
        | rfl
        | (exact absurd h (by decide))
        | (exact le_trans (by norm_num) h1)
        | (constructor <;> linarith)
        | linarith
  refine ⟨main, ?_, ?_, ?_⟩
  · intro b hb
    exact ((main b).2.2.2.2).mpr (by linarith)
  · exact ((main _).2.1).mpr (by norm_num)
  · exact ((main _).1).mpr (by norm_num)

/-- Claim C6: `get_movement_significance` yields the mega tag iff
`v ≥ 10000`, critical iff `5000 ≤ v < 10000`, major iff `1000 ≤ v < 5000`,
significant iff `500 ≤ v < 1000`, and notable iff `v < 500`; with the
boundary values 499→notable, 500→significant, 999→significant, 1000→major,
4999→major, 5000→critical, 9999→critical, 10000→mega. -/
theorem C6_movement_significance_thresholds :
    (∀ v : Rat,
      (get_movement_significance v = "[!!!] MEGA MOVEMENT" ↔ 10000 ≤ v) ∧
      (get_movement_significance v = "[!!] CRITICAL" ↔ 5000 ≤ v ∧ v < 10000) ∧
      (get_movement_significance v = "[!] MAJOR" ↔ 1000 ≤ v ∧ v < 5000) ∧
      (get_movement_significance v = "[*] SIGNIFICANT" ↔ 500 ≤ v ∧ v < 1000) ∧
      (get_movement_significance v = "[-] NOTABLE" ↔ v < 500)) ∧
    get_movement_significance 499 = "[-] NOTABLE" ∧
    get_movement_significance 500 = "[*] SIGNIFICANT" ∧
    get_movement_significance 999 = "[*] SIGNIFICANT" ∧
    get_movement_significance 1000 = "[!] MAJOR" ∧
    get_movement_significance 4999 = "[!] MAJOR" ∧
    get_movement_significance 5000 = "[!!] CRITICAL" ∧
    get_movement_significance 9999 = "[!!] CRITICAL" ∧
    get_movement_significance 10000 = "[!!!] MEGA MOVEMENT" := by
  refine ⟨?_, ?_, ?_, ?_, ?_, ?_, ?_, ?_, ?_⟩
  · intro v
    unfold get_movement_significance
    split_ifs with h1 h2 h3 h4 <;>
      refine ⟨?_, ?_, ?_, ?_, ?_⟩ <;>
      constructor <;>
      intro h <;>
      first
        | rfl
        | (exact absurd h (by decide))
        | (exact le_trans (by norm_num) h1)
        | (constructor <;> linarith)
        | linarith
  all_goals norm_num [get_movement_significance]

/-- Claim C2: the risk score is the clamp to `[0, 100]` of the sum of
exactly the applicable contributions: +30 when `balance > 1000`, −20 when
the address is in the known-whale table under case-insensitive comparison,
+25 when the fraction of fetched transactions of value above 100 exceeds
one half, +40 when the earliest fetched transaction (the last of the
newest-first page) is less than 30 days old; the sum is order-independent
and the result always lies in `[0, 100]`. -/
theorem C2_risk_score_sum (now : Int) (d : WhaleDetector) (address : String)
    (transactions : List Tx) (balance : Rat) :
    _calculate_risk_score now d address transactions balance
      = max 0 (min 100
          ((if balance > 1000 then (30 : Rat) else 0)
            + (if (d.known_whales.map (fun p => pyLower p.1)).contains (pyLower address)
                then (-20 : Rat) else 0)
            + (if transactions ≠ [] ∧
                  ((transactions.countP (fun tx => decide (ethValue tx > 100)) : Rat)) /
                    (transactions.length : Rat) > 1 / 2
                then (25 : Rat) else 0)
            + (match transactions.getLast? with
               | none => (0 : Rat)
               | some tx => if now - tx.timeStamp < 30 * 86400 then 40 else 0))) ∧
    _calculate_risk_score now d address transactions balance
      = max 0 (min 100
          ((match transactions.getLast? with
            | none => (0 : Rat)
            | some tx => if now - tx.timeStamp < 30 * 86400 then 40 else 0)
            + (if transactions ≠ [] ∧
                  ((transactions.countP (fun tx => decide (ethValue tx > 100)) : Rat)) /
                    (transactions.length : Rat) > 1 / 2
                then (25 : Rat) else 0)
            + (if (d.known_whales.map (fun p => pyLower p.1)).contains (pyLower address)
                then (-20 : Rat) else 0)
            + (if balance > 1000 then (30 : Rat) else 0))) ∧
    0 ≤ _calculate_risk_score now d address transactions balance ∧
    _calculate_risk_score now d address transactions balance ≤ 100 := by
  have key : _calculate_risk_score now d address transactions balance
      = max 0 (min 100
          ((if balance > 1000 then (30 : Rat) else 0)
            + (if (d.known_whales.map (fun p => pyLower p.1)).contains (pyLower address)
                then (-20 : Rat) else 0)
            + (if transactions ≠ [] ∧
                  ((transactions.countP (fun tx => decide (ethValue tx > 100)) : Rat)) /
                    (transactions.length : Rat) > 1 / 2
                then (25 : Rat) else 0)
            + (match transactions.getLast? with
               | none => (0 : Rat)
               | some tx => if now - tx.timeStamp < 30 * 86400 then 40 else 0))) := by
    simp only [_calculate_risk_score]
    rcases transactions with _ | ⟨t0, ts⟩
    · simp only [List.getLast?_nil, ne_eq, not_true_eq_false, false_and, if_false]
      split_ifs <;> simp [List.sum_append]
    · rcases hgl : (t0 :: ts).getLast? with _ | lastTx
      · simp at hgl
      · simp only [ne_eq, List.cons_ne_nil, not_false_eq_true, true_and,
          timedeltaDays_lt_30]
        split_ifs <;> simp [List.sum_append] <;> norm_num
  refine ⟨key, ?_, ?_, ?_⟩
  · rw [key]
    congr 1
    congr 1
    ring
  · rw [key]
    exact le_max_left _ _
  · rw [key]
    exact max_le (by norm_num) (min_le_left _ _)

/-- Claim C3: the activity score examines at most the 20 most recent
transactions, counts those whose timestamp lies within the last 30 whole
days of the current time (`timedelta.days ≤ 30`), and equals
`min(100, (recent_count / 20) * 100)`; it is `0` on the empty list and
`100` for 20 transactions all within the last 30 days. -/
theorem C3_activity_score (now : Int) (transactions : List Tx) :
    _calculate_activity_score now transactions
      = min 100 ((((transactions.take 20).countP
            (fun tx => decide (timedeltaDays now tx.timeStamp ≤ 30)) : Rat) / 20) * 100) ∧
    _calculate_activity_score now transactions
      = _calculate_activity_score now (transactions.take 20) ∧
    (transactions = [] → _calculate_activity_score now transactions = 0) ∧
    (transactions.length = 20 →
      (∀ tx ∈ transactions, timedeltaDays now tx.timeStamp ≤ 30) →
      _calculate_activity_score now transactions = 100) := by
  have main : ∀ l : List Tx, _calculate_activity_score now l
      = min 100 ((((l.take 20).countP
            (fun tx => decide (timedeltaDays now tx.timeStamp ≤ 30)) : Rat) / 20) * 100) := by
    intro l
    rcases l with _ | ⟨t0, ts⟩
    · simp [_calculate_activity_score]
    · simp only [_calculate_activity_score, List.cons_ne_nil, if_neg,
        not_false_eq_true, ite_false]
      rw [foldlCountP]
      simp
  refine ⟨main transactions, ?_, ?_, ?_⟩
  · rw [main, main, List.take_take]
    norm_num
  · intro h
    rw [h]
    simp [_calculate_activity_score]
  · intro hlen hall
    rw [main]
    have htake : transactions.take 20 = transactions :=
      List.take_of_length_le (by omega)
    rw [htake]
    rw [List.countP_eq_length.mpr (fun tx htx => by simpa using hall tx htx), hlen]
    norm_num

/-- Witness for C3 at 20 concrete transactions all timestamped `now`. -/
theorem C3_activity_score_witness :
    _calculate_activity_score 1000 (List.replicate 20 tx0) = 100 :=
  (C3_activity_score 1000 (List.replicate 20 tx0)).2.2.2 (by simp)
    (fun tx htx => by rw [List.eq_of_mem_replicate htx]; decide)

/-- Claim C4: when the transaction fetch returns an empty list,
`analyze_whale` returns (rather than failing) a metrics record whose
counters, scores and timestamps are all zero or `None`, with the whale
class still computed from the fetched balance. -/
theorem C4_analyze_whale_empty (now : Int) (d : WhaleDetector) (ds : DataSource)
    (address : String) (balance : Rat)
    (hb : ds.get_balance address = .ok balance)
    (ht : ds.get_transactions address 1 100 = .ok []) :
    analyze_whale now d ds address = .ok
      { address := address, eth_balance := balance,
        whale_class := classify_whale balance,
        total_transactions := 0, large_transactions := 0,
        avg_transaction_value := 0, max_transaction_value := 0,
        first_seen := none, last_activity := none,
        activity_score := 0, risk_score := 0, token_diversity := 0,
        chain := d.chain } := by
  unfold analyze_whale analyzeWhaleBody
  rw [hb, ht]
  simp [except_bind_ok]

/-- Witness for C4 at a concrete data source with balance 42 and no
transactions. -/
theorem C4_analyze_whale_empty_witness :
    analyze_whale 0 d0 dsEmptyTx "0xa" = .ok
      { address := "0xa", eth_balance := 42,
        whale_class := classify_whale 42,
        total_transactions := 0, large_transactions := 0,
        avg_transaction_value := 0, max_transaction_value := 0,
        first_seen := none, last_activity := none,
        activity_score := 0, risk_score := 0, token_diversity := 0,
        chain := "ethereum" } :=
  C4_analyze_whale_empty 0 d0 dsEmptyTx "0xa" 42 rfl rfl

/-- Claim C5 (refuting evidence): a data-source failure inside
`analyze_whale` is re-raised as a bare `Exception`, which is not in
`compare_whales`' catch set `(httpx.HTTPError, ValueError, KeyError)`; so a
batch with one failing address aborts with that error instead of returning
the metrics of the remaining address — even though the remaining address
analyzes successfully on its own. -/
theorem C5_compare_whales_aborts_on_failure :
    compare_whales 0 d0 dsC5 ["0xbad", "0xgood"]
      = .error (.genericError "Error analyzing whale on ethereum: connection refused") ∧
    analyze_whale 0 d0 dsC5 "0xgood" = .ok
      { address := "0xgood", eth_balance := 5, whale_class := classify_whale 5,
        total_transactions := 0, large_transactions := 0,
        avg_transaction_value := 0, max_transaction_value := 0,
        first_seen := none, last_activity := none,
        activity_score := 0, risk_score := 0, token_diversity := 0,
        chain := "ethereum" } := by
  constructor <;> rfl

/-- Claim C7: in `track_exchange_whales`, a transaction of sufficient value
is classified as a deposit exactly when the exchange address is its
recipient under case-insensitive comparison, with the counterparty being
the sender; otherwise it is a withdrawal with the counterparty being the
recipient. Concretely, an exchange receiving a 600-unit transfer with
`min_amount = 500` yields one "deposit" whose counterparty is the sender. -/
theorem C7_exchange_deposit_classification :
    (∀ (exchange_addr : String) (tx : Tx) (min_amount : Rat),
      ethValue tx ≥ min_amount →
      ((classifyExchangeTx exchange_addr tx).1 = "deposit" ↔
          pyLower tx.to_addr = pyLower exchange_addr) ∧
      (pyLower tx.to_addr = pyLower exchange_addr →
        (classifyExchangeTx exchange_addr tx).2 = tx.from_addr) ∧
      (¬ pyLower tx.to_addr = pyLower exchange_addr →
        (classifyExchangeTx exchange_addr tx).1 = "withdrawal" ∧
        (classifyExchangeTx exchange_addr tx).2 = tx.to_addr)) ∧
    (∃ m : ExchangeMovementRec,
      track_exchange_whales dEx dsEx 500 = .ok [m] ∧
      m.movement_type = "deposit" ∧ m.whale_address = txDeposit.from_addr ∧
      m.value_eth = 600) := by
  constructor
  · intro exchange_addr tx min_amount hval
    unfold classifyExchangeTx
    by_cases hto : pyLower tx.to_addr = pyLower exchange_addr
    · rw [if_pos hto]
      exact ⟨by simp [hto], fun _ => rfl, fun hc => absurd hto hc⟩
    · rw [if_neg hto]
      refine ⟨?_, fun hc => absurd hc hto, fun _ => ⟨rfl, rfl⟩⟩
      constructor
      · intro hdep
        rw [show ("withdrawal", tx.to_addr).1 = "withdrawal" from rfl] at hdep
        exact absurd hdep (by decide)
      · intro hc
        exact absurd hc hto
  · have hv : ethValue txDeposit = 600 := by norm_num [ethValue, txDeposit]
    have hto : txDeposit.to_addr = "0xexch" := rfl
    have hfrom : txDeposit.from_addr = "0xsender" := rfl
    have hhash : txDeposit.hash = "0xdep" := rfl
    have hts : txDeposit.timeStamp = 500 := rfl
    have hbn : txDeposit.blockNumber = "2" := rfl
    refine ⟨{ hash := "0xdep", exchange := "TestExchange",
              exchange_address := "0xexch", whale_address := "0xsender",
              movement_type := "deposit", value_eth := 600,
              whale_class := "shrimp", whale_label := none,
              timestamp := 500, block_number := "2", chain := "ethereum" },
            ?_, rfl, rfl, rfl⟩
    norm_num [track_exchange_whales, texSeedLoop, texTxLoop, dEx, dsEx, hv,
      hto, hfrom, hhash, hts, hbn, classifyExchangeTx,
      _get_whale_class_cached, classify_whale, optClassStr, WhaleClass.value,
      get_whale_label, Except.map, sortKeyDesc, List.insertionSort,
      List.orderedInsert, List.take, pyLower]

/-- Witness for the hypothesis-guarded part of C7, at the concrete
transaction `txDeposit` with threshold `ethValue txDeposit` itself. -/
theorem C7_exchange_deposit_classification_witness :
    ((classifyExchangeTx "0xexch" txDeposit).1 = "deposit" ↔
        pyLower txDeposit.to_addr = pyLower "0xexch") ∧
    (pyLower txDeposit.to_addr = pyLower "0xexch" →
      (classifyExchangeTx "0xexch" txDeposit).2 = txDeposit.from_addr) ∧
    (¬ pyLower txDeposit.to_addr = pyLower "0xexch" →
      (classifyExchangeTx "0xexch" txDeposit).1 = "withdrawal" ∧
      (classifyExchangeTx "0xexch" txDeposit).2 = txDeposit.to_addr) :=
  C7_exchange_deposit_classification.1 "0xexch" txDeposit (ethValue txDeposit)
    (le_refl _)

/-- Claim C8: a successful `compare_whales` result is sorted by balance
descending, and within each equal-balance class the addresses appear as a
subsequence of the input address list (stability). -/
theorem C8_compare_whales_sorted (now : Int) (d : WhaleDetector) (ds : DataSource)
    (addresses : List String) (l : List WhaleMetrics)
    (h : compare_whales now d ds addresses = .ok l) :
    l.Sorted (fun a b => b.eth_balance ≤ a.eth_balance) ∧
    ∀ q : Rat,
      ((l.filter (fun m => decide (m.eth_balance = q))).map
        WhaleMetrics.address).Sublist addresses := by
  unfold compare_whales at h
  obtain ⟨ms, hloop, hl⟩ := except_map_ok h
  rw [hl]
  constructor
  · exact sortKeyDesc_sorted _ _
  · intro q
    rw [filter_sortKeyDesc]
    exact ((List.filter_sublist _).map _).trans
      (compareWhalesLoop_addresses now d ds addresses ms hloop)

/-- Witness for C8 at a concrete two-address batch under `dsEmptyTx`. -/
theorem C8_compare_whales_sorted_witness :
    List.Sorted (fun a b : WhaleMetrics => b.eth_balance ≤ a.eth_balance)
      [mW "0xa", mW "0xb"] ∧
    (([mW "0xa", mW "0xb"].filter (fun m => decide (m.eth_balance = 42))).map
      WhaleMetrics.address).Sublist ["0xa", "0xb"] :=
  ⟨(C8_compare_whales_sorted 0 d0 dsEmptyTx ["0xa", "0xb"]
      [mW "0xa", mW "0xb"] (by rfl)).1,
   (C8_compare_whales_sorted 0 d0 dsEmptyTx ["0xa", "0xb"]
      [mW "0xa", mW "0xb"] (by rfl)).2 42⟩

/-- Claim C9: successful results of the three discovery routines are capped
at 50/30/20 items respectively and sorted descending by their ranking
value. -/
theorem C9_discovery_bounds (d : WhaleDetector) (ds : DataSource)
    (min_value : Rat) (hours_back : Nat) (min_amount min_balance : Rat)
    (l1 : List MovementRec) (l2 : List ExchangeMovementRec)
    (l3 : List DiscoveredWhaleRec) :
    (discover_whale_movements d ds min_value hours_back = .ok l1 →
      l1.length ≤ 50 ∧ l1.Sorted (fun a b => b.value_eth ≤ a.value_eth)) ∧
    (track_exchange_whales d ds min_amount = .ok l2 →
      l2.length ≤ 30 ∧ l2.Sorted (fun a b => b.value_eth ≤ a.value_eth)) ∧
    (discover_top_whales d ds min_balance = .ok l3 →
      l3.length ≤ 20 ∧ l3.Sorted (fun a b => b.eth_balance ≤ a.eth_balance)) := by
  refine ⟨?_, ?_, ?_⟩
  · intro h
    unfold discover_whale_movements at h
    obtain ⟨movements, hrun, hl⟩ := except_map_ok h
    rw [hl]
    exact ⟨take_length_le _ _, sorted_take (sortKeyDesc_sorted _ _) _⟩
  · intro h
    unfold track_exchange_whales at h
    obtain ⟨movements, hrun, hl⟩ := except_map_ok h
    rw [hl]
    exact ⟨take_length_le _ _, sorted_take (sortKeyDesc_sorted _ _) _⟩
  · intro h
    simp only [discover_top_whales] at h
    split at h
    next e heq => cases h
    next discovered heq =>
      obtain ⟨whale_list, hrun, hl⟩ := except_map_ok h
      rw [hl]
      exact ⟨take_length_le _ _, sorted_take (sortKeyDesc_sorted _ _) _⟩

/-- Witness for C9: under `dsEmptyTx` and the empty label tables all three
routines succeed with the empty list. -/
theorem C9_discovery_bounds_witness :
    (([] : List MovementRec).length ≤ 50 ∧
      List.Sorted (fun a b : MovementRec => b.value_eth ≤ a.value_eth) []) ∧
    (([] : List ExchangeMovementRec).length ≤ 30 ∧
      List.Sorted (fun a b : ExchangeMovementRec => b.value_eth ≤ a.value_eth) []) ∧
    (([] : List DiscoveredWhaleRec).length ≤ 20 ∧
      List.Sorted (fun a b : DiscoveredWhaleRec => b.eth_balance ≤ a.eth_balance) []) :=
  ⟨(C9_discovery_bounds d0 dsEmptyTx 100 24 500 1000 [] [] []).1 (by rfl),
   (C9_discovery_bounds d0 dsEmptyTx 100 24 500 1000 [] [] []).2.1 (by rfl),
   (C9_discovery_bounds d0 dsEmptyTx 100 24 500 1000 [] [] []).2.2 (by rfl)⟩

/-- Claim C10: a successful `compare_whales` result has at most one record
per input address: its length is bounded by the input length, every
reported address is an input address, and no address is reported more often
than it occurs in the input. -/
theorem C10_compare_whales_bounds (now : Int) (d : WhaleDetector) (ds : DataSource)
    (addresses : List String) (l : List WhaleMetrics)
    (h : compare_whales now d ds addresses = .ok l) :
    l.length ≤ addresses.length ∧
    (∀ m ∈ l, m.address ∈ addresses) ∧
    ∀ a : String, (l.map WhaleMetrics.address).count a ≤ addresses.count a := by
  unfold compare_whales at h
  obtain ⟨ms, hloop, hl⟩ := except_map_ok h
  have hsub := compareWhalesLoop_addresses now d ds addresses ms hloop
  have hperm : List.Perm (sortKeyDesc WhaleMetrics.eth_balance ms) ms :=
    sortKeyDesc_perm _ _
  rw [hl]
  refine ⟨?_, ?_, ?_⟩
  · calc (sortKeyDesc WhaleMetrics.eth_balance ms).length
        = ms.length := hperm.length_eq
      _ = (ms.map WhaleMetrics.address).length := (List.length_map _ _).symm
      _ ≤ addresses.length := hsub.length_le
  · intro m hm
    exact hsub.subset (List.mem_map_of_mem _ (hperm.mem_iff.mp hm))
  · intro a
    rw [((hperm.map WhaleMetrics.address).count_eq a : _)]
    exact hsub.count_le a

/-- Witness for C10 at the same concrete two-address batch. -/
theorem C10_compare_whales_bounds_witness :
    ([mW "0xa", mW "0xb"].length ≤ (["0xa", "0xb"] : List String).length) ∧
    (∀ m ∈ [mW "0xa", mW "0xb"], m.address ∈ (["0xa", "0xb"] : List String)) ∧
    (([mW "0xa", mW "0xb"].map WhaleMetrics.address).count "0xa"
      ≤ (["0xa", "0xb"] : List String).count "0xa") :=
  ⟨(C10_compare_whales_bounds 0 d0 dsEmptyTx ["0xa", "0xb"]
      [mW "0xa", mW "0xb"] (by rfl)).1,
   (C10_compare_whales_bounds 0 d0 dsEmptyTx ["0xa", "0xb"]
      [mW "0xa", mW "0xb"] (by rfl)).2.1,
   (C10_compare_whales_bounds 0 d0 dsEmptyTx ["0xa", "0xb"]
      [mW "0xa", mW "0xb"] (by rfl)).2.2 "0xa"⟩

end EtherScan
